import Mathlib

/-!
Verification of the airbnk_mqtt lock-device protocol codec
(`custom_components/airbnk_mqtt/lock_device.py`).

Bytes are modelled as `Nat` (values 0..255), byte strings as `List Nat`,
and Python text strings as Lean `String`.  The AES block cipher and SHA-1
(imported by the source from the `cryptography` package and `hashlib`) are
given full executable implementations so that concrete packets can be
evaluated; everything else is translated line by line from the source.
-/

set_option maxRecDepth 100000
set_option maxHeartbeats 4000000

/-! ## Generic list and string helpers -/

/-- Python slice assignment `buf[start : start+vals.length] = vals`
(the only form the source uses writes a slice of exactly the values' length). -/
def setSlice (buf : List Nat) (start : Nat) (vals : List Nat) : List Nat :=
  buf.take start ++ vals ++ buf.drop (start + vals.length)

/-- Python `bytes.rstrip(b"\x00")`: drop trailing zero bytes. -/
def rstrip0 (l : List Nat) : List Nat :=
  (l.reverse.dropWhile (· = 0)).reverse

/-- Python `str.strip("\x00")` on the byte level: drop leading and trailing zeros. -/
def strip0 (l : List Nat) : List Nat :=
  rstrip0 (l.dropWhile (· = 0))

/-- Uppercase hex digit of a nibble. -/
def hexDigitU (n : Nat) : Char :=
  if n < 10 then Char.ofNat (48 + n) else Char.ofNat (55 + n)

/-- Lowercase hex digit of a nibble. -/
def hexDigitL (n : Nat) : Char :=
  if n < 10 then Char.ofNat (48 + n) else Char.ofNat (87 + n)

/-- Uppercase hex encoding of a byte list (`binascii.hexlify(..).upper()`). -/
def hexUpper (l : List Nat) : String :=
  ⟨(l.map (fun b => [hexDigitU ((b >>> 4) &&& 15), hexDigitU (b &&& 15)])).flatten⟩

/-- Lowercase hex encoding (`"".join("{:02x}".format b)`). -/
def hexLower (l : List Nat) : String :=
  ⟨(l.map (fun b => [hexDigitL ((b >>> 4) &&& 15), hexDigitL (b &&& 15)])).flatten⟩

/-- Value of one hex digit, `none` for a non-hex character. -/
def hexVal (c : Char) : Option Nat :=
  if '0' ≤ c ∧ c ≤ '9' then some (c.toNat - 48)
  else if 'a' ≤ c ∧ c ≤ 'f' then some (c.toNat - 87)
  else if 'A' ≤ c ∧ c ≤ 'F' then some (c.toNat - 55)
  else none

/-- Python `bytearray.fromhex` on a char list; `none` models the raised `ValueError`. -/
def hexToBytesL : List Char → Option (List Nat)
  | [] => some []
  | [_] => none
  | a :: b :: rest =>
    match hexVal a, hexVal b, hexToBytesL rest with
    | some x, some y, some l => some ((x * 16 + y) :: l)
    | _, _, _ => none

/-- Python `bytearray.fromhex` on a string. -/
def hexToBytes (s : String) : Option (List Nat) :=
  hexToBytesL s.data

/-- Python `str.upper()` (ASCII). -/
def strUpper (s : String) : String := ⟨s.data.map Char.toUpper⟩

/-- Python string slice `s[0:n]`. -/
def strTake (s : String) (n : Nat) : String := ⟨s.data.take n⟩

/-- Python string slice `s[n:]`. -/
def strDrop (s : String) (n : Nat) : String := ⟨s.data.drop n⟩

/-- Python string slice `s[a:b]`. -/
def strSlice (s : String) (a b : Nat) : String := ⟨(s.data.take b).drop a⟩

/-- Value of one standard base64 alphabet character. -/
def b64val (c : Char) : Nat :=
  if 'A' ≤ c ∧ c ≤ 'Z' then c.toNat - 65
  else if 'a' ≤ c ∧ c ≤ 'z' then c.toNat - 71
  else if '0' ≤ c ∧ c ≤ '9' then c.toNat + 4
  else if c = '+' then 62
  else if c = '/' then 63
  else 0

/-- Standard base64 decoding (`base64.b64decode`) over groups of four characters,
honouring `=` padding. -/
def b64decodeL : List Char → List Nat
  | a :: b :: c :: d :: rest =>
    let n := b64val a * 262144 + b64val b * 4096 + b64val c * 64 + b64val d
    if d = '=' then
      if c = '=' then [n / 65536 % 256]
      else [n / 65536 % 256, n / 256 % 256]
    else (n / 65536 % 256) :: (n / 256 % 256) :: (n % 256) :: b64decodeL rest
  | _ => []

/-- Python `base64.b64decode` on a string. -/
def b64decode (s : String) : List Nat := b64decodeL s.data

/-- Chop a list into chunks of `n` elements, with structural fuel
(`fuel` is instantiated with the list length, enough for `n ≥ 1`). -/
def chunksAux {α : Type} (n : Nat) : Nat → List α → List (List α)
  | _, [] => []
  | 0, _ :: _ => []
  | fuel + 1, l => l.take n :: chunksAux n fuel (l.drop n)

/-- Chop a list into chunks of `n` elements (ECB block splitting). -/
def chunks {α : Type} (n : Nat) (l : List α) : List (List α) :=
  chunksAux n l.length l

/-- Big-endian byte serialization of `v` on `numBytes` bytes. -/
def bytesBE (numBytes v : Nat) : List Nat :=
  (List.range numBytes).map (fun i => (v >>> (8 * (numBytes - 1 - i))) &&& 255)

/-! ## SHA-1 (`hashlib.sha1`) -/

/-- Rotate a 32-bit word left by `s` bits. -/
def rotl (s n : Nat) : Nat :=
  ((n <<< s) ||| (n >>> (32 - s))) % 4294967296

/-- SHA-1 message padding: `0x80`, zeros to 56 mod 64, then the 64-bit bit length. -/
def sha1Pad (msg : List Nat) : List Nat :=
  let l := msg.length
  msg ++ [0x80] ++ List.replicate ((120 - (l + 1) % 64) % 64) 0 ++ bytesBE 8 (8 * l)

/-- Big-endian 32-bit words of a byte list. -/
def wordsOfBytes : List Nat → List Nat
  | a :: b :: c :: d :: rest =>
    (a <<< 24 ||| b <<< 16 ||| c <<< 8 ||| d) :: wordsOfBytes rest
  | _ => []

/-- Extend the 16 schedule words to 80 (iterated `k` more times). -/
def sha1Sched : Nat → List Nat → List Nat
  | 0, ws => ws
  | k + 1, ws =>
    let l := ws.length
    sha1Sched k (ws ++ [rotl 1 ((ws.getD (l - 3) 0) ^^^ (ws.getD (l - 8) 0) ^^^
                                (ws.getD (l - 14) 0) ^^^ (ws.getD (l - 16) 0))])

/-- SHA-1 round function. -/
def sha1F (t b c d : Nat) : Nat :=
  if t < 20 then (b &&& c) ||| ((b ^^^ 4294967295) &&& d)
  else if t < 40 then b ^^^ c ^^^ d
  else if t < 60 then (b &&& c) ||| (b &&& d) ||| (c &&& d)
  else b ^^^ c ^^^ d

/-- SHA-1 round constants. -/
def sha1K (t : Nat) : Nat :=
  if t < 20 then 0x5A827999
  else if t < 40 then 0x6ED9EBA1
  else if t < 60 then 0x8F1BBCDC
  else 0xCA62C1D6

/-- The 80 SHA-1 rounds over the schedule words. -/
def sha1Rounds : List Nat → Nat → Nat × Nat × Nat × Nat × Nat → Nat × Nat × Nat × Nat × Nat
  | [], _, st => st
  | w :: ws, t, (a, b, c, d, e) =>
    sha1Rounds ws (t + 1)
      ((rotl 5 a + sha1F t b c d + e + w + sha1K t) % 4294967296, a, rotl 30 b, c, d)

/-- One SHA-1 block compression. -/
def sha1Block (h : Nat × Nat × Nat × Nat × Nat) (block : List Nat) :
    Nat × Nat × Nat × Nat × Nat :=
  match h, sha1Rounds (sha1Sched 64 (wordsOfBytes block)) 0 h with
  | (h0, h1, h2, h3, h4), (a, b, c, d, e) =>
    ((h0 + a) % 4294967296, (h1 + b) % 4294967296, (h2 + c) % 4294967296,
     (h3 + d) % 4294967296, (h4 + e) % 4294967296)

/-- SHA-1 digest (20 bytes) of a byte list. -/
def sha1 (msg : List Nat) : List Nat :=
  match (chunks 64 (sha1Pad msg)).foldl sha1Block
    (0x67452301, 0xEFCDAB89, 0x98BADCFE, 0x10325476, 0xC3D2E1F0) with
  | (h0, h1, h2, h3, h4) =>
    bytesBE 4 h0 ++ bytesBE 4 h1 ++ bytesBE 4 h2 ++ bytesBE 4 h3 ++ bytesBE 4 h4

example : sha1 [0x61, 0x62, 0x63] =
    [169, 153, 62, 54, 71, 6, 129, 106, 186, 62, 37, 113, 120, 80, 194, 108,
     156, 208, 216, 157] := by decide

example : sha1 [] =
    [218, 57, 163, 238, 94, 107, 75, 13, 50, 85, 191, 239, 149, 96, 24, 144,
     175, 216, 7, 9] := by decide

/-! ## AES-128 (the `cryptography` package's `algorithms.AES` with `modes.ECB`) -/

/-- The AES S-box, packed little-endian into one natural number
(byte `b` of the table sits at bit offset `8 * b`). -/
def sboxNat : Nat :=
  0x16bb54b00f2d99416842e6bf0d89a18cdf2855cee9871e9b948ed9691198f8e19e1dc186b95735610ef6034866b53e708a8bbd4b1f74dde8c6b4a61c2e2578ba08ae7a65eaf4566ca94ed58d6d37c8e779e4959162acd3c25c2406490a3a32e0db0b5ede14b8ee4688902a22dc4f816073195d643d7ea7c41744975fec130ccdd2f3ff1021dab6bcf5389d928f40a351a89f3c507f02f94585334d43fbaaefd0cf584c4a39becb6a5bb1fc20ed00d153842fe329b3d63b52a05a6e1b1a2c830975b227ebe28012079a059618c323c7041531d871f1e5a534ccf73f362693fdb7c072a49cafa2d4adf04759fa7dc982ca76abd7fe2b670130c56f6bf27b777c63

/-- The AES inverse S-box, packed like `sboxNat`. -/
def invSboxNat : Nat :=
  0x7d0c2155631469e126d677ba7e042b17619953833cbbebc8b0f52aae4d3be0a0ef9cc9939f7ae52d0d4ab519a97f51605fec8027591012b131c7078833a8dd1ff45acd78fec0db9a2079d2c64b3e56fc1bbe18aa0e62b76f89c5291d711af1476edf751ce837f9e28535ade72274ac9673e6b4f0cecff297eadc674f4111913a6b8a130103bdafc1020f3fca8f1e2cd00645b3b80558e4f70ad3bc8c00abd890849d8da75746155edab9edfd5048706c92b6655dcc5ca4d41698688664f6f87225d18b6d49a25b76b224d92866a12e084ec3fa420b954cee3d23c2a632947b54cbe9dec444438e3487ff2f9b8239e37cfbd7f3819ea340bf38a53630d56a0952

/-- AES S-box lookup. -/
def sboxAt (b : Nat) : Nat := (sboxNat >>> (8 * b)) &&& 255

/-- AES inverse S-box lookup. -/
def invSboxAt (b : Nat) : Nat := (invSboxNat >>> (8 * b)) &&& 255

/-- Multiplication by x in GF(2^8) modulo the AES polynomial. -/
def xtime (a : Nat) : Nat :=
  if a < 128 then a * 2 else (a * 2) ^^^ 0x11B

/-- Iterated `xtime`. -/
def xtimeN : Nat → Nat → Nat
  | 0, b => b % 256
  | n + 1, b => xtime (xtimeN n b)

/-- GF(2^8) multiplication by the small constant `a`. -/
def gmul (a b : Nat) : Nat :=
  (List.range 8).foldl (fun acc i => if (a >>> i) &&& 1 = 1 then acc ^^^ xtimeN i b else acc) 0

/-- XOR two byte lists pointwise. -/
def zipXor (a b : List Nat) : List Nat := List.zipWith (· ^^^ ·) a b

/-- AES round constants. -/
def rconAt (i : Nat) : Nat :=
  [0x01, 0x02, 0x04, 0x08, 0x10, 0x20, 0x40, 0x80, 0x1B, 0x36].getD (i - 1) 0

/-- Key-expansion loop: extend the list of 4-byte words by `k` more words. -/
def ksLoop : Nat → List (List Nat) → List (List Nat)
  | 0, ws => ws
  | k + 1, ws =>
    let i := ws.length
    let last := ws.getD (i - 1) []
    let temp :=
      if i % 4 = 0 then
        zipXor ((match last with | a :: rest => rest ++ [a] | [] => []).map sboxAt)
          [rconAt (i / 4), 0, 0, 0]
      else last
    ksLoop k (ws ++ [zipXor (ws.getD (i - 4) []) temp])

/-- The 11 AES-128 round keys (16 bytes each) of a 16-byte key. -/
def roundKeys (key : List Nat) : List (List Nat) :=
  (chunks 4 (ksLoop 40 (chunks 4 ((List.range 16).map (fun i => key.getD i 0))))).map
    (fun g => g.flatten)

/-- AddRoundKey. -/
def addRoundKey (s k : List Nat) : List Nat :=
  (List.range 16).map (fun i => s.getD i 0 ^^^ k.getD i 0)

/-- SubBytes. -/
def subBytes (s : List Nat) : List Nat := (List.range 16).map (fun i => sboxAt (s.getD i 0))

/-- InvSubBytes. -/
def invSubBytes (s : List Nat) : List Nat := (List.range 16).map (fun i => invSboxAt (s.getD i 0))

/-- ShiftRows on the flat byte order (byte `4c + r` holds state row `r`, column `c`). -/
def shiftRows (s : List Nat) : List Nat :=
  (List.range 16).map (fun i => s.getD (4 * ((i / 4 + i % 4) % 4) + i % 4) 0)

/-- InvShiftRows. -/
def invShiftRows (s : List Nat) : List Nat :=
  (List.range 16).map (fun i => s.getD (4 * ((i / 4 + 4 - i % 4) % 4) + i % 4) 0)

/-- MixColumns. -/
def mixColumns (s : List Nat) : List Nat :=
  (List.range 16).map (fun i =>
    let c := i / 4 * 4
    let b := fun r => s.getD (c + r) 0
    match i % 4 with
    | 0 => gmul 2 (b 0) ^^^ gmul 3 (b 1) ^^^ b 2 ^^^ b 3
    | 1 => b 0 ^^^ gmul 2 (b 1) ^^^ gmul 3 (b 2) ^^^ b 3
    | 2 => b 0 ^^^ b 1 ^^^ gmul 2 (b 2) ^^^ gmul 3 (b 3)
    | _ => gmul 3 (b 0) ^^^ b 1 ^^^ b 2 ^^^ gmul 2 (b 3))

/-- InvMixColumns. -/
def invMixColumns (s : List Nat) : List Nat :=
  (List.range 16).map (fun i =>
    let c := i / 4 * 4
    let b := fun r => s.getD (c + r) 0
    match i % 4 with
    | 0 => gmul 14 (b 0) ^^^ gmul 11 (b 1) ^^^ gmul 13 (b 2) ^^^ gmul 9 (b 3)
    | 1 => gmul 9 (b 0) ^^^ gmul 14 (b 1) ^^^ gmul 11 (b 2) ^^^ gmul 13 (b 3)
    | 2 => gmul 13 (b 0) ^^^ gmul 9 (b 1) ^^^ gmul 14 (b 2) ^^^ gmul 11 (b 3)
    | _ => gmul 11 (b 0) ^^^ gmul 13 (b 1) ^^^ gmul 9 (b 2) ^^^ gmul 14 (b 3))

/-- The 9 middle rounds and the final round of the FIPS-197 Cipher,
consuming one round key per round. -/
def aesEncRounds : List (List Nat) → List Nat → List Nat
  | [rk], s => addRoundKey (shiftRows (subBytes s)) rk
  | rk :: rks, s => aesEncRounds rks (addRoundKey (mixColumns (shiftRows (subBytes s))) rk)
  | [], s => s

/-- AES-128 block encryption (FIPS-197 Cipher). -/
def aesEncryptBlock (key block : List Nat) : List Nat :=
  match roundKeys key with
  | rk0 :: rks => aesEncRounds rks (addRoundKey block rk0)
  | [] => block

/-- The 9 middle rounds and the final round of the FIPS-197 InvCipher,
consuming one round key per round (keys supplied in order rk9, rk8, …, rk0). -/
def aesDecRounds : List (List Nat) → List Nat → List Nat
  | [rk], s => addRoundKey (invSubBytes (invShiftRows s)) rk
  | rk :: rks, s => aesDecRounds rks (invMixColumns (addRoundKey (invSubBytes (invShiftRows s)) rk))
  | [], s => s

/-- AES-128 block decryption (FIPS-197 InvCipher). -/
def aesDecryptBlock (key block : List Nat) : List Nat :=
  match (roundKeys key).reverse with
  | rk10 :: rks => aesDecRounds rks (addRoundKey block rk10)
  | [] => block

/-- AES-ECB over a whole byte list, block by block, no chaining. -/
def ecbEncrypt (key data : List Nat) : List Nat :=
  ((chunks 16 data).map (aesEncryptBlock key)).flatten

/-- AES-ECB decryption over a whole byte list. -/
def ecbDecrypt (key data : List Nat) : List Nat :=
  ((chunks 16 data).map (aesDecryptBlock key)).flatten

example : aesEncryptBlock
    [0x00, 0x01, 0x02, 0x03, 0x04, 0x05, 0x06, 0x07, 0x08, 0x09, 0x0a, 0x0b, 0x0c, 0x0d, 0x0e, 0x0f]
    [0x00, 0x11, 0x22, 0x33, 0x44, 0x55, 0x66, 0x77, 0x88, 0x99, 0xaa, 0xbb, 0xcc, 0xdd, 0xee, 0xff] =
    [0x69, 0xc4, 0xe0, 0xd8, 0x6a, 0x7b, 0x04, 0x30, 0xd8, 0xcd, 0xb7, 0x80, 0x70, 0xb4, 0xc5, 0x5a] := by
  decide

example : aesDecryptBlock
    [0x00, 0x01, 0x02, 0x03, 0x04, 0x05, 0x06, 0x07, 0x08, 0x09, 0x0a, 0x0b, 0x0c, 0x0d, 0x0e, 0x0f]
    [0x69, 0xc4, 0xe0, 0xd8, 0x6a, 0x7b, 0x04, 0x30, 0xd8, 0xcd, 0xb7, 0x80, 0x70, 0xb4, 0xc5, 0x5a] =
    [0x00, 0x11, 0x22, 0x33, 0x44, 0x55, 0x66, 0x77, 0x88, 0x99, 0xaa, 0xbb, 0xcc, 0xdd, 0xee, 0xff] := by
  decide

/-! ## `AESCipher` (source lines 44-72) -/

/-- Source `AESCipher._pad`: append `padnum = 16 - len % 16` bytes of value `padnum`. -/
def AESCipher.pad (data : List Nat) : List Nat :=
  let padnum := 16 - data.length % 16
  data ++ List.replicate padnum padnum

/-- Source `AESCipher._unpad`: `data[: -ord(data[len(data)-1 :])]` — read the last
byte as a count and drop that many trailing bytes (a count of 0 keeps nothing,
because `data[:-0]` is `data[:0]`). -/
def AESCipher.unpad (data : List Nat) : List Nat :=
  let n := data.getD (data.length - 1) 0
  if n = 0 then [] else data.take (data.length - n)

/-- Source `AESCipher.encrypt` with `use_base64=False`: ECB-encrypt the padded input. -/
def AESCipher.encrypt (key raw : List Nat) : List Nat :=
  ecbEncrypt key (AESCipher.pad raw)

/-- Source `AESCipher.decrypt` with `use_base64=False`: ECB-decrypt, then `_unpad`.
Note that `_unpad` is applied unconditionally (`use_base64` only controls the
base64 decoding of the input). -/
def AESCipher.decrypt (key enc : List Nat) : List Nat :=
  AESCipher.unpad (ecbDecrypt key enc)

/-! ## Signing engine (source lines 284-342) -/

/-- Source `XOR64Buffer`: XOR the first 64 bytes with `value`, in place. -/
def XOR64Buffer (arr : List Nat) (value : Nat) : List Nat :=
  (arr.take 64).map (· ^^^ value) ++ arr.drop 64

/-- Source `generateWorkingKey(arr, i)`: 72-byte inner buffer (key ⊕ 0x36 padding,
big-endian `i` in the last 4 bytes), SHA-1, then 84-byte outer buffer
(key ⊕ 0x5C padding, inner digest at [64,84)), SHA-1. -/
def generateWorkingKey (arr : List Nat) (i : Nat) : List Nat :=
  let arr2 := setSlice (List.replicate 72 0) 0 arr
  let arr2 := XOR64Buffer arr2 0x36
  let arr2 := arr2.set 71 (i &&& 0xFF)
  let arr2 := arr2.set 70 ((i >>> 8) &&& 0xFF)
  let arr2 := arr2.set 69 ((i >>> 16) &&& 0xFF)
  let arr2 := arr2.set 68 ((i >>> 24) &&& 0xFF)
  let arr2sha1 := sha1 arr2
  let arr3 := setSlice (List.replicate 84 0) 0 arr
  let arr3 := XOR64Buffer arr3 0x5C
  let arr3 := setSlice arr3 64 arr2sha1
  sha1 arr3

/-- Source `generatePswV2(arr)`: 8-byte code; for i in 0..3 the byte `arr[i+16]`
selects two bytes of `arr` by its high and low nibble. -/
def generatePswV2 (arr : List Nat) : List Nat :=
  let a := fun j => arr.getD j 0
  [a ((a 16 >>> 4) &&& 15), a (a 16 &&& 15),
   a ((a 17 >>> 4) &&& 15), a (a 17 &&& 15),
   a ((a 18 >>> 4) &&& 15), a (a 18 &&& 15),
   a ((a 19 >>> 4) &&& 15), a (a 19 &&& 15)]

/-- Source `generateSignatureV2(key, i, arr)`: inner buffer of `len(arr) + 68`
bytes (first 20 bytes of `key`, ⊕ 0x36 over the first 64, message at
[64, 64+len), big-endian `i` in the last 4 bytes), SHA-1; outer 84-byte buffer
as in `generateWorkingKey`; then `generatePswV2` of the outer digest. -/
def generateSignatureV2 (key : List Nat) (i : Nat) (arr : List Nat) : List Nat :=
  let lenArr := arr.length
  let arr2 := setSlice (List.replicate (lenArr + 68) 0) 0 (key.take 20)
  let arr2 := XOR64Buffer arr2 0x36
  let arr2 := setSlice arr2 64 arr
  let arr2 := arr2.set (lenArr + 67) (i &&& 0xFF)
  let arr2 := arr2.set (lenArr + 66) ((i >>> 8) &&& 0xFF)
  let arr2 := arr2.set (lenArr + 65) ((i >>> 16) &&& 0xFF)
  let arr2 := arr2.set (lenArr + 64) ((i >>> 24) &&& 0xFF)
  let arr2sha1 := sha1 arr2
  let arr3 := setSlice (List.replicate 84 0) 0 (key.take 20)
  let arr3 := XOR64Buffer arr3 0x5C
  let arr3 := setSlice arr3 64 arr2sha1
  generatePswV2 (sha1 arr3)

/-- Source `getCheckSum(arr, i1, i2)`: sum of bytes `[i1, i2)` masked to a byte. -/
def getCheckSum (arr : List Nat) (i1 i2 : Nat) : Nat :=
  ((List.range' i1 (i2 - i1)).foldl (fun c i => c + arr.getD i 0) 0) &&& 0xFF

/-! ## `makePackageV3` (source lines 344-371) -/

/-- The first half of source `makePackageV3(lockOp, tStamp)`: header, opcode,
timestamp, and the in-place encryption `code[4:20] = encrypted`
(`setSlice`, because the encryption of the 14 payload bytes always yields
exactly 16 bytes). -/
def makePackageV3Pre (manufacturerKey : List Nat) (lockOp tStamp : Nat) : List Nat :=
  let code := List.replicate 36 0
  let code := code.set 0 0xAA
  let code := code.set 1 0x10
  let code := code.set 2 0x1A
  let code := (code.set 3 3).set 4 3
  let code := code.set 5 (16 + lockOp)
  let code := code.set 8 1
  let code := code.set 12 (tStamp &&& 0xFF)
  let code := code.set 11 ((tStamp >>> 8) &&& 0xFF)
  let code := code.set 10 ((tStamp >>> 16) &&& 0xFF)
  let code := code.set 9 ((tStamp >>> 24) &&& 0xFF)
  let toEncrypt := (code.drop 4).take 14
  let manKey := manufacturerKey.take 16
  let encrypted := AESCipher.encrypt manKey toEncrypt
  setSlice code 4 encrypted

/-- The 36-byte command buffer built by source `makePackageV3(lockOp, tStamp)`,
with the `_lockData` reads (`manufacturerKey`, `bindingKey`, lock events)
passed explicitly: signature at `[20, 28)` and checksum at byte 28 on top of
`makePackageV3Pre`. -/
def makePackageV3Code (manufacturerKey bindingKey : List Nat) (lockEvents lockOp tStamp : Nat) :
    List Nat :=
  let code := makePackageV3Pre manufacturerKey lockOp tStamp
  let workingKey := generateWorkingKey bindingKey 0
  let signature := generateSignatureV2 workingKey lockEvents ((code.drop 3).take 17)
  let code := setSlice code 20 signature
  let code := code.set (20 + signature.length) (getCheckSum code 3 28)
  code

/-- Source `makePackageV3` return value: `binascii.hexlify(code).upper()`. -/
def makePackageV3 (manufacturerKey bindingKey : List Nat) (lockEvents lockOp tStamp : Nat) :
    String :=
  hexUpper (makePackageV3Code manufacturerKey bindingKey lockEvents lockOp tStamp)

/-! ## `decryptKeys` (source lines 587-605) -/

/-- Keys record returned by `decryptKeys` (the source's `json` dict; the two
serial strings are kept as byte lists). -/
structure LockKeys where
  lockSn : List Nat
  lockModel : List Nat
  manufacturerKey : List Nat
  bindingKey : List Nat
deriving DecidableEq

/-- The decrypted provisioning record `dec` of source `decryptKeys`:
base64-decode `newSnInfo`, drop the 10-byte trailer, AES-decrypt under the
first `len-4` bytes of `appKey` (the `appKey` string is modelled by its
ASCII byte list). -/
def decRecord (newSnInfo : String) (appKey : List Nat) : List Nat :=
  let dec0 := b64decode newSnInfo
  let sstr2 := dec0.take (dec0.length - 10)
  let key := appKey.take (appKey.length - 4)
  AESCipher.decrypt key sstr2

/-- The session key of source `decryptKeys`: first 16 bytes of
`sha1(lockSn + appKey)` (the source goes through `hexdigest()[0:32]` and
`bytes.fromhex`, which is the same 16 digest bytes). -/
def sessionKey (newSnInfo : String) (appKey : List Nat) : List Nat :=
  let dec := decRecord newSnInfo appKey
  let lockSn := rstrip0 (dec.take 16)
  (sha1 (lockSn ++ appKey)).take 16

/-- Source `decryptKeys(newSnInfo, appKey)`. -/
def decryptKeys (newSnInfo : String) (appKey : List Nat) : LockKeys :=
  let dec := decRecord newSnInfo appKey
  let lockSn := rstrip0 (dec.take 16)
  let lockModel := rstrip0 ((dec.drop 80).take 8)
  let manKeyEncrypted := (dec.drop 16).take 32
  let bindKeyEncrypted := (dec.drop 48).take 32
  let key2 := sessionKey newSnInfo appKey
  { lockSn := lockSn, lockModel := lockModel,
    manufacturerKey := AESCipher.decrypt key2 manKeyEncrypted,
    bindingKey := AESCipher.decrypt key2 bindKeyEncrypted }

/-! ## Lock states

Modelled from the spec: the numeric `LOCK_STATE_*` constants and the
`LOCK_STATE_STRINGS` table live in `const.py`, which is not part of the
source tree here.  The spec fixes their meaning: the advertisement state
bits `(flags >> 4) & 3` are stored directly as the state, the frame-2
acknowledgment stores `LOCK_STATE_UNLOCKED if operating == 1 else 0` and the
spec calls that final state "locked", so locked = 0, unlocked = 1, jammed = 2,
with operating and failed the two remaining distinct states. -/

/-- Modelled from the spec: `const.py`'s `LOCK_STATE_LOCKED`. -/
def LOCK_STATE_LOCKED : Nat := 0

/-- Modelled from the spec: `const.py`'s `LOCK_STATE_UNLOCKED`. -/
def LOCK_STATE_UNLOCKED : Nat := 1

/-- Modelled from the spec: `const.py`'s `LOCK_STATE_JAMMED`. -/
def LOCK_STATE_JAMMED : Nat := 2

/-- Modelled from the spec: `const.py`'s `LOCK_STATE_OPERATING`. -/
def LOCK_STATE_OPERATING : Nat := 3

/-- Modelled from the spec: `const.py`'s `LOCK_STATE_FAILED`. -/
def LOCK_STATE_FAILED : Nat := 4

/-- Modelled from the spec: `const.py`'s `LOCK_STATE_STRINGS` table
(the spec's lock states "unlocked/locked/jammed/operating/failed"). -/
def LOCK_STATE_STRINGS (s : Nat) : String :=
  if s = 0 then "locked"
  else if s = 1 then "unlocked"
  else if s = 2 then "jammed"
  else if s = 3 then "operating"
  else "failed"

/-! ## Device session state (`AirbnkLockMqttDevice` instance attributes)

One record per mutable attribute the embedded functions read or write.
`battery` keeps the raw integer `(bArr[16] << 8) | bArr[17]` (the source
stores that value times `0.1` as a float; only the raw value matters for
state-change reasoning).  `_lockConfig["sn"]` and the `_lockData` keys
`manufacturerKey` / `bindingKey` (set once at attach) are carried here too,
as is `_lockConfig[CONF_MAC_ADDRESS]`, which `parse_MQTT_message` may write.
Serial-number strings are byte lists (the source compares UTF-8 text). -/
structure DeviceState where
  curr_state : Nat := LOCK_STATE_UNLOCKED
  battery : Nat := 0
  boardModel : Nat := 0
  lversionOfSoft : Nat := 0
  sversionOfSoft : Nat := 0
  lockEvents : Nat := 0
  isBackLock : Bool := false
  isInit : Bool := false
  isImageA : Bool := false
  isHadNewRecord : Bool := false
  isEnableAuto : Bool := false
  isLeftOpen : Bool := false
  isLowBattery : Bool := false
  magnetcurr_state : Nat := 0
  isMagnetEnable : Bool := false
  isBABA : Bool := false
  macAddress : String := ""
  snConfig : List Nat := []
  manufacturerKey : List Nat := []
  bindingKey : List Nat := []
  lockDataState : String := ""
  lockDataEvents : Nat := 0
  lockDataBattery : Nat := 0
  lockDataLastAdvert : List Nat := []
  last_mqtt_advert : String := ""
  operating : Nat := 0
  frame1hex : String := ""
  frame2hex : String := ""
  frame1sent : Bool := false
  frame2sent : Bool := false
  time1 : Int := 0
  is_available : Bool := false
  systemTime : Nat := 0
deriving DecidableEq

/-- Outbound MQTT publications of the embedded functions. -/
inductive DevAction where
  /-- `requestDetails(mac)`: publish `mac` on the BLEDetails topic. -/
  | publishDetails (mac : String)
  /-- `sendFrame1` / `sendFrame2`: publish a write payload on the BLEOp topic. -/
  | publishOp (payload : String)
deriving DecidableEq

/-- Result of processing one inbound event: the new state, the published
actions, the `curr_state` values observed by the registered callbacks, and
whether the source raised an exception on the way. -/
structure MsgResult where
  st : DeviceState
  actions : List DevAction := []
  notified : List Nat := []
  threw : Bool := false
deriving DecidableEq

/-- Source `write_characteristic_UUID`. -/
def write_characteristic_UUID : String := "FFF2"

/-- Source `service_UUID`. -/
def service_UUID : String := "FFF0"

/-- Source `BLEOPWritePAYLOADGen(frame)`:
`f"M:{mac_address} s:{service_UUID} c:{write_UUID} w:{frame} go"`. -/
def BLEOPWritePAYLOADGen (st : DeviceState) (frame : String) : String :=
  "M:" ++ st.macAddress ++ " s:" ++ service_UUID ++ " c:" ++ write_characteristic_UUID ++
    " w:" ++ frame ++ " go"

/-! ## `parse_MQTT_advert` (source lines 525-570) -/

/-- The serial number embedded in an advertisement:
`bArr[7:16].decode("utf-8").strip("\x00")` on the byte level. -/
def advertSerial (bArr : List Nat) : List Nat :=
  strip0 ((bArr.drop 7).take 9)

/-- The event counter decoded from an advertisement:
`(bArr[18] << 24) | (bArr[19] << 16) | (bArr[20] << 8) | bArr[21]`. -/
def advertEvents (bArr : List Nat) : Nat :=
  (bArr.getD 18 0) <<< 24 ||| (bArr.getD 19 0) <<< 16 |||
    (bArr.getD 20 0) <<< 8 ||| bArr.getD 21 0

/-- Source `parse_MQTT_advert` on the decoded byte array: reject a wrong
header; otherwise update the cached snapshot.  The serial-number comparison
against `_lockConfig["sn"]` only logs an error in the source and changes
nothing, so it does not appear here (see `advertSerial` for the decoded
value).  `curr_state` and `lockEvents` are updated only when the decoded
event counter differs from the cached one. -/
def parse_MQTT_advertB (st : DeviceState) (bArr : List Nat) : DeviceState :=
  if bArr.getD 0 0 ≠ 0xBA ∨ bArr.getD 1 0 ≠ 0xBA then st
  else
    let b := fun j => bArr.getD j 0
    let st := { st with
      battery := (b 16) <<< 8 ||| b 17,
      boardModel := b 2,
      lversionOfSoft := b 3,
      sversionOfSoft := (b 4) <<< 16 ||| (b 5) <<< 8 ||| b 6 }
    let lockEvents := advertEvents bArr
    let st :=
      if lockEvents ≠ st.lockEvents then
        { st with lockEvents := lockEvents, curr_state := ((b 22) >>> 4) &&& 3 }
      else st
    let st := { st with
      isBackLock := (b 22) &&& 1 != 0,
      isInit := 2 &&& (b 22) != 0,
      isImageA := (b 22) &&& 4 != 0,
      isHadNewRecord := (b 22) &&& 8 != 0,
      isEnableAuto := (b 22) &&& 0x40 != 0,
      isLeftOpen := (b 22) &&& 0x80 != 0,
      isLowBattery := (b 23) &&& 0x10 != 0,
      magnetcurr_state := ((b 23) >>> 5) &&& 3,
      isMagnetEnable := (b 23) &&& 0x80 != 0,
      isBABA := true }
    { st with
      lockDataState := LOCK_STATE_STRINGS st.curr_state,
      lockDataEvents := st.lockEvents,
      lockDataBattery := st.battery,
      lockDataLastAdvert := bArr }

/-- Source `parse_MQTT_advert` on the hex string argument:
`bytearray.fromhex` may raise (modelled by the `threw` flag), otherwise the
byte-level update runs. -/
def parse_MQTT_advert (st : DeviceState) (mqtt_advert : String) : DeviceState × Bool :=
  match hexToBytes mqtt_advert with
  | none => (st, true)
  | some bArr => (parse_MQTT_advertB st bArr, false)

/-! ## `parse_MQTT_message` (source lines 197-269) and `operateLock` (271-282)

The two top-level branches of `parse_MQTT_message` are embedded separately,
each taking the already-extracted JSON fields of its message kind. -/

/-- The `"DetailsBLE"` branch of source `parse_MQTT_message`, given the
payload hex string `p`, the advert's MAC `mqtt_mac`, and the arrival time
`now` (`int(round(time.time()))`).  Covers MAC discovery (empty configured
MAC), the length-62 advert parse, and the 30-second availability window. -/
def processAdvertMsg (st0 : DeviceState) (p mqtt_mac : String) (now : Int) : MsgResult :=
  let disc :=
    if st0.macAddress = "" then
      let sn_hex := hexLower st0.snConfig
      if strSlice p 24 (24 + sn_hex.length) ≠ sn_hex then none
      else some ({ st0 with macAddress := mqtt_mac }, [DevAction.publishDetails mqtt_mac])
    else some (st0, [])
  match disc with
  | none => { st := st0 }
  | some (st, acts) =>
    if mqtt_mac = st.macAddress ∧ p.length = 62 then
      let st := { st with last_mqtt_advert := p }
      match hexToBytes (strDrop p 10) with
      | none => { st := st, actions := acts, threw := true }
      | some bArr =>
        let st := parse_MQTT_advertB st bArr
        let time2 := st.time1
        let st := { st with time1 := now }
        let deltatime := now - time2
        let st :=
          if deltatime < 30 then { st with is_available := true }
          else if time2 ≠ 0 then { st with is_available := false }
          else st
        { st := st, actions := acts, notified := [st.curr_state] }
    else { st := st, actions := acts }

/-- The `"BLEOperation"` branch of source `parse_MQTT_message`, given the
acknowledgment's `state`, `MAC` and `write` fields.  A non-`"DONEWRITE"`
status sets `LOCK_STATE_FAILED` and raises (before any MAC or payload
check); otherwise the message is matched against `frame1hex.upper()` (send
frame 2) and then against `frame2hex.upper()` (finish the operation). -/
def processAck (st : DeviceState) (ackState ackMAC ackWrite : String) : MsgResult :=
  if ackState ≠ "DONEWRITE" then
    { st := { st with curr_state := LOCK_STATE_FAILED }, threw := true }
  else
    let step1 :=
      if ackMAC = st.macAddress ∧ ackWrite = strUpper st.frame1hex then
        ({ st with frame1sent := true },
         [DevAction.publishOp (BLEOPWritePAYLOADGen st st.frame2hex)])
      else (st, ([] : List DevAction))
    match step1 with
    | (st1, acts1) =>
      if ackMAC = st1.macAddress ∧ ackWrite = strUpper st1.frame2hex then
        let st2 := { st1 with
          frame2sent := true,
          curr_state := if st1.operating = 1 then LOCK_STATE_UNLOCKED else 0,
          operating := 0 }
        { st := st2, actions := acts1, notified := [st2.curr_state] }
      else { st := st1, actions := acts1 }

/-- Source `generateOperationCode(lock_dir)`: for direction 1 or 2, record
`systemTime := now` and derive the two frames from the hex packet
(`"FF00" + opCode[0:36]`, `"FF01" + opCode[36:]`); any other direction
returns `None` without touching the state. -/
def generateOperationCode (st : DeviceState) (lock_dir : Nat) (now : Nat) : DeviceState :=
  if lock_dir ≠ 1 ∧ lock_dir ≠ 2 then st
  else
    let st := { st with systemTime := now }
    let opCode := makePackageV3 st.manufacturerKey st.bindingKey st.lockDataEvents lock_dir
      st.systemTime
    { st with
      frame1hex := "FF00" ++ strTake opCode 36,
      frame2hex := "FF01" ++ strDrop opCode 36 }

/-- Source `operateLock(lock_dir)`: reset the frame flags, set
`operating := lock_dir` and announce `LOCK_STATE_OPERATING` to the
callbacks; for a non-zero direction, build the frames and publish frame 1. -/
def operateLock (st0 : DeviceState) (lock_dir : Nat) (now : Nat) : MsgResult :=
  let st := { st0 with
    frame1sent := false,
    frame2sent := false,
    operating := lock_dir,
    curr_state := LOCK_STATE_OPERATING }
  if st.operating ≠ 0 then
    let st := generateOperationCode st lock_dir now
    { st := st,
      actions := [DevAction.publishOp (BLEOPWritePAYLOADGen st st.frame1hex)],
      notified := [LOCK_STATE_OPERATING] }
  else
    { st := st, notified := [LOCK_STATE_OPERATING] }

/-! ## Helper lemmas: list surgery -/

theorem getD_set_ne (l : List Nat) (i j v d : Nat) (h : i ≠ j) :
    (l.set i v).getD j d = l.getD j d := by
  simp [List.getD, List.getElem?_set_ne h]

theorem getD_set_self (l : List Nat) (i v d : Nat) (h : i < l.length) :
    (l.set i v).getD i d = v := by
  simp [List.getD, List.getElem?_set_self, h]

theorem take_set_of_le : ∀ (l : List Nat) (i n v : Nat), n ≤ i →
    (l.set i v).take n = l.take n
  | [], _, _, _, _ => rfl
  | _ :: _, 0, 0, _, _ => rfl
  | _ :: _, 0, _ + 1, _, h => absurd h (by omega)
  | _ :: _, _ + 1, 0, _, _ => rfl
  | a :: l, i + 1, n + 1, v, h => by
    simp only [List.set, List.take]
    rw [take_set_of_le l i n v (by omega)]

theorem drop_set_of_le : ∀ (l : List Nat) (i n v : Nat), n ≤ i →
    (l.set i v).drop n = (l.drop n).set (i - n) v
  | [], _, _, _, _ => by simp
  | _ :: _, _, 0, _, _ => rfl
  | _ :: _, 0, _ + 1, _, h => absurd h (by omega)
  | a :: l, i + 1, n + 1, v, h => by
    simp only [List.set, List.drop]
    rw [drop_set_of_le l i n v (by omega)]
    congr 1
    omega

theorem length_setSlice (buf : List Nat) (start : Nat) (vals : List Nat)
    (h : start + vals.length ≤ buf.length) :
    (setSlice buf start vals).length = buf.length := by
  simp [setSlice]
  omega

theorem drop_setSlice_at (buf : List Nat) (start : Nat) (vals : List Nat)
    (h : start ≤ buf.length) :
    (setSlice buf start vals).drop start = vals ++ buf.drop (start + vals.length) := by
  have htl : (buf.take start).length = start := by simp; omega
  calc (setSlice buf start vals).drop start
      = ((buf.take start ++ (vals ++ buf.drop (start + vals.length)))).drop
          (buf.take start).length := by
        simp [setSlice, htl]
    _ = vals ++ buf.drop (start + vals.length) := List.drop_left _ _

theorem take_append_left (l1 l2 : List Nat) (n : Nat) (h : n ≤ l1.length) :
    (l1 ++ l2).take n = l1.take n :=
  List.take_append_of_le_length h

/-! ## Helper lemmas: chunking and block lengths -/

theorem chunksAux_fuel {α : Type} {n : Nat} (hn : 0 < n) :
    ∀ (fuel : Nat) (l : List α), l.length ≤ fuel → chunksAux n fuel l = chunks n l
  | _, [], _ => by cases ‹Nat› <;> rfl
  | 0, _ :: _, h => by simp at h
  | fuel + 1, a :: l, h => by
    show (a :: l).take n :: chunksAux n fuel ((a :: l).drop n) = chunks n (a :: l)
    have hd : ((a :: l).drop n).length ≤ fuel := by
      simp only [List.length_drop, List.length_cons] at *
      omega
    rw [chunksAux_fuel hn fuel _ hd]
    show _ = chunksAux n (a :: l).length (a :: l)
    have : (a :: l).length = l.length + 1 := by simp
    rw [this]
    show _ = (a :: l).take n :: chunksAux n l.length ((a :: l).drop n)
    rw [chunksAux_fuel hn l.length _ (by simp only [List.length_drop]; omega)]

theorem chunks_eq_cons {α : Type} {n : Nat} (hn : 0 < n) (a : α) (l : List α) :
    chunks n (a :: l) = (a :: l).take n :: chunks n ((a :: l).drop n) := by
  show chunksAux n (a :: l).length (a :: l) = _
  have : (a :: l).length = l.length + 1 := by simp
  rw [this]
  show (a :: l).take n :: chunksAux n l.length ((a :: l).drop n) = _
  rw [chunksAux_fuel hn l.length _ (by simp only [List.length_drop]; omega)]

theorem ksLoop_length : ∀ (k : Nat) (ws : List (List Nat)),
    (ksLoop k ws).length = ws.length + k
  | 0, _ => rfl
  | k + 1, ws => by
    show (ksLoop k _).length = _
    rw [ksLoop_length k]
    simp
    omega

theorem length_chunks_dvd {α : Type} {n : Nat} (hn : 0 < n) :
    ∀ (l : List α), n ∣ l.length → (chunks n l).length = l.length / n
  | [], _ => by simp [chunks, chunksAux]
  | a :: l, hdvd => by
    rw [chunks_eq_cons hn]
    have hle : n ≤ (a :: l).length := Nat.le_of_dvd (by simp) hdvd
    have hdvd2 : n ∣ ((a :: l).drop n).length := by
      simp only [List.length_drop]
      exact (Nat.dvd_sub' hdvd dvd_rfl)
    rw [List.length_cons, length_chunks_dvd hn ((a :: l).drop n) hdvd2]
    simp only [List.length_drop, List.length_cons]
    rcases hdvd with ⟨k, hk⟩
    simp only [List.length_cons] at hk
    rw [hk]
    have hk1 : 1 ≤ k := by
      rcases k with _ | k
      · omega
      · omega
    rw [Nat.mul_div_cancel_left k hn]
    have : n * k - n = n * (k - 1) := by
      rw [Nat.mul_sub]
      omega
    rw [this, Nat.mul_div_cancel_left (k - 1) hn]
    omega
termination_by l => l.length
decreasing_by simp only [List.length_drop, List.length_cons]; omega

theorem roundKeys_length (key : List Nat) : (roundKeys key).length = 11 := by
  have hbase : ((List.range 16).map (fun i => key.getD i 0)).length = 16 := by simp
  have hin : (chunks 4 ((List.range 16).map (fun i => key.getD i 0))).length = 4 := by
    rw [length_chunks_dvd (by omega) _ (by rw [hbase]; omega)]
    rw [hbase]
  have hks : (ksLoop 40 (chunks 4 ((List.range 16).map (fun i => key.getD i 0)))).length = 44 := by
    rw [ksLoop_length, hin]
  show ((chunks 4 _).map _).length = 11
  rw [List.length_map, length_chunks_dvd (by omega) _ (by rw [hks]; omega), hks]

theorem aesEncRounds_length : ∀ (rks : List (List Nat)) (s : List Nat), rks ≠ [] →
    (aesEncRounds rks s).length = 16
  | [rk], s, _ => by simp [aesEncRounds, addRoundKey]
  | rk :: rk2 :: rks, s, _ =>
    aesEncRounds_length (rk2 :: rks) _ (by simp)

theorem aesDecRounds_length : ∀ (rks : List (List Nat)) (s : List Nat), rks ≠ [] →
    (aesDecRounds rks s).length = 16
  | [rk], s, _ => by simp [aesDecRounds, addRoundKey]
  | rk :: rk2 :: rks, s, _ =>
    aesDecRounds_length (rk2 :: rks) _ (by simp)

theorem aesEncryptBlock_length (key block : List Nat) :
    (aesEncryptBlock key block).length = 16 := by
  have hlen := roundKeys_length key
  unfold aesEncryptBlock
  split
  · rename_i rk0 rks hrk
    rw [hrk] at hlen
    simp only [List.length_cons] at hlen
    apply aesEncRounds_length
    intro hc
    rw [hc] at hlen
    simp at hlen
  · rename_i hrk
    rw [hrk] at hlen
    simp at hlen

theorem aesDecryptBlock_length (key block : List Nat) :
    (aesDecryptBlock key block).length = 16 := by
  have hlen : (roundKeys key).reverse.length = 11 := by
    rw [List.length_reverse, roundKeys_length]
  unfold aesDecryptBlock
  split
  · rename_i rk10 rks hrk
    rw [hrk] at hlen
    simp only [List.length_cons] at hlen
    apply aesDecRounds_length
    intro hc
    rw [hc] at hlen
    simp at hlen
  · rename_i hrk
    rw [hrk] at hlen
    simp at hlen

theorem ecbEncrypt_length (key : List Nat) :
    ∀ (data : List Nat), data.length % 16 = 0 → (ecbEncrypt key data).length = data.length
  | [], _ => rfl
  | a :: l, h => by
    have hd : ((a :: l).drop 16).length % 16 = 0 := by
      simp only [List.length_drop, List.length_cons] at *
      omega
    have ih := ecbEncrypt_length key ((a :: l).drop 16) hd
    simp only [ecbEncrypt] at ih ⊢
    rw [chunks_eq_cons (by omega)]
    simp only [List.map_cons, List.flatten_cons, List.length_append,
      aesEncryptBlock_length, ih]
    simp only [List.length_drop, List.length_cons] at *
    omega
termination_by data => data.length
decreasing_by simp only [List.length_drop, List.length_cons]; omega

theorem ecbDecrypt_length (key : List Nat) :
    ∀ (data : List Nat), data.length % 16 = 0 → (ecbDecrypt key data).length = data.length
  | [], _ => rfl
  | a :: l, h => by
    have hd : ((a :: l).drop 16).length % 16 = 0 := by
      simp only [List.length_drop, List.length_cons] at *
      omega
    have ih := ecbDecrypt_length key ((a :: l).drop 16) hd
    simp only [ecbDecrypt] at ih ⊢
    rw [chunks_eq_cons (by omega)]
    simp only [List.map_cons, List.flatten_cons, List.length_append,
      aesDecryptBlock_length, ih]
    simp only [List.length_drop, List.length_cons] at *
    omega
termination_by data => data.length
decreasing_by simp only [List.length_drop, List.length_cons]; omega

theorem pad_length (data : List Nat) :
    (AESCipher.pad data).length = data.length + (16 - data.length % 16) := by
  simp [AESCipher.pad]

theorem pad_length_mod (data : List Nat) : (AESCipher.pad data).length % 16 = 0 := by
  rw [pad_length]
  omega

theorem encrypt_length (key raw : List Nat) :
    (AESCipher.encrypt key raw).length = raw.length + (16 - raw.length % 16) := by
  show (ecbEncrypt key (AESCipher.pad raw)).length = _
  rw [ecbEncrypt_length key _ (pad_length_mod raw), pad_length]

theorem unpad_length_le (data : List Nat) :
    (AESCipher.unpad data).length ≤ data.length - 1 := by
  show (if data.getD (data.length - 1) 0 = 0 then [] else
    data.take (data.length - data.getD (data.length - 1) 0)).length ≤ data.length - 1
  split
  · simp
  · rename_i hne
    simp only [List.length_take]
    omega

theorem sha1_length (msg : List Nat) : (sha1 msg).length = 20 := by
  unfold sha1
  split
  simp [bytesBE]

theorem generatePswV2_length (arr : List Nat) : (generatePswV2 arr).length = 8 := rfl

theorem generateSignatureV2_length (key : List Nat) (i : Nat) (arr : List Nat) :
    (generateSignatureV2 key i arr).length = 8 := rfl

theorem makePackageV3Pre_length (mk : List Nat) (op t : Nat) :
    (makePackageV3Pre mk op t).length = 36 := by
  unfold makePackageV3Pre
  rw [length_setSlice]
  · simp
  · rw [encrypt_length]
    simp

theorem makePackageV3Code_length (mk bk : List Nat) (ev op t : Nat) :
    (makePackageV3Code mk bk ev op t).length = 36 := by
  unfold makePackageV3Code
  dsimp only
  rw [generateSignatureV2_length, List.length_set, length_setSlice]
  · exact makePackageV3Pre_length mk op t
  · rw [generateSignatureV2_length, makePackageV3Pre_length]
    omega

/-! ## Claim theorems -/

/-- C10: `AESCipher.encrypt` appends exactly `N = 16 - len % 16` padding bytes,
each holding the value `N`; `N` is always between 1 and 16 (so a plaintext
whose length is a multiple of 16 grows by a full extra block), and the
ciphertext length is `len + N`, a positive multiple of 16. -/
theorem C10_padding_and_length (key raw : List Nat) :
    AESCipher.pad raw = raw ++ List.replicate (16 - raw.length % 16) (16 - raw.length % 16)
    ∧ 1 ≤ 16 - raw.length % 16
    ∧ 16 - raw.length % 16 ≤ 16
    ∧ (raw.length % 16 = 0 → 16 - raw.length % 16 = 16)
    ∧ (AESCipher.encrypt key raw).length = raw.length + (16 - raw.length % 16)
    ∧ (AESCipher.encrypt key raw).length % 16 = 0
    ∧ 0 < (AESCipher.encrypt key raw).length := by
  refine ⟨rfl, ?_, ?_, ?_, encrypt_length key raw, ?_, ?_⟩
  · omega
  · omega
  · intro h
    omega
  · rw [encrypt_length]
    omega
  · rw [encrypt_length]
    omega

/-- C10 witness: the theorem instantiated at a concrete key and plaintext. -/
theorem C10_witness :
    AESCipher.pad [7, 7, 7] = [7, 7, 7] ++ List.replicate 13 13
    ∧ (AESCipher.encrypt [] [7, 7, 7]).length = 3 + 13 :=
  ⟨by have h := (C10_padding_and_length [] [7, 7, 7]).1
      simpa using h,
   by have h := (C10_padding_and_length [] [7, 7, 7]).2.2.2.2.1
      simpa using h⟩

/-- C9 (amended): a direction-0 request sends no frames and builds none
(the frame buffers are untouched), announces the "operating" lock state to
the observers exactly once, and leaves the pending direction `operating`
cleared to 0 — but the reported lock state remains `LOCK_STATE_OPERATING`;
nothing settles it back. -/
theorem C9_direction_zero (st : DeviceState) (now : Nat) :
    (operateLock st 0 now).st.curr_state = LOCK_STATE_OPERATING
    ∧ (operateLock st 0 now).st.operating = 0
    ∧ (operateLock st 0 now).actions = []
    ∧ (operateLock st 0 now).notified = [LOCK_STATE_OPERATING]
    ∧ (operateLock st 0 now).st.frame1hex = st.frame1hex
    ∧ (operateLock st 0 now).st.frame2hex = st.frame2hex
    ∧ (operateLock st 0 now).st.frame1sent = false
    ∧ (operateLock st 0 now).st.frame2sent = false := by
  simp [operateLock]

/-- C9 counterexample: the claim says the machine "immediately settles back
out of the operating state"; on the code, after `operateLock(0)` from the
unlocked state the lock state is still `LOCK_STATE_OPERATING` — it never
leaves it. -/
theorem C9_counterexample :
    (operateLock { curr_state := LOCK_STATE_UNLOCKED, macAddress := "AA:BB" } 0 7).st.curr_state
      = LOCK_STATE_OPERATING := by
  decide

/-- C3 (amended): an acknowledgment whose status is the success marker
`"DONEWRITE"` but whose MAC differs from the session's, or whose payload
matches neither outstanding frame, changes no state, publishes nothing,
notifies nobody and raises nothing. -/
theorem C3_success_ack_ignored (st : DeviceState) (s m w : String)
    (hs : s = "DONEWRITE")
    (h : m ≠ st.macAddress ∨ (w ≠ strUpper st.frame1hex ∧ w ≠ strUpper st.frame2hex)) :
    processAck st s m w = { st := st } := by
  subst hs
  rcases h with hm | ⟨h1, h2⟩
  · simp [processAck, hm]
  · simp [processAck, h1, h2]

/-- C3 witness: a mismatched-MAC success acknowledgment at concrete values. -/
theorem C3_witness :
    ("DONEWRITE" : String) = "DONEWRITE"
    ∧ ("BB" : String) ≠ ({ macAddress := "AA" : DeviceState }).macAddress
    ∧ processAck { macAddress := "AA" } "DONEWRITE" "BB" "w"
        = { st := { macAddress := "AA" } } :=
  ⟨rfl, by decide,
   C3_success_ack_ignored { macAddress := "AA" } "DONEWRITE" "BB" "w" rfl (Or.inl (by decide))⟩

/-- C3 counterexample: the claim says a mismatched-MAC acknowledgment is
ignored "regardless of the message's status field"; on the code, a
non-success status sets `LOCK_STATE_FAILED` before any MAC or payload
check, so a failed acknowledgment from a foreign MAC does change state. -/
theorem C3_counterexample :
    (processAck { macAddress := "AA", curr_state := LOCK_STATE_UNLOCKED } "FAILED" "BB" "w").st.curr_state
      = LOCK_STATE_FAILED
    ∧ ({ macAddress := "AA", curr_state := LOCK_STATE_UNLOCKED : DeviceState }).curr_state
      ≠ LOCK_STATE_FAILED := by
  decide

/-- C4 (amended, header part): an advertisement byte array that does not
start with `0xBA 0xBA` is discarded without mutating any cached state. -/
theorem C4_header_reject (st : DeviceState) (bArr : List Nat)
    (h : bArr.getD 0 0 ≠ 0xBA ∨ bArr.getD 1 0 ≠ 0xBA) :
    parse_MQTT_advertB st bArr = st := by
  unfold parse_MQTT_advertB
  rw [if_pos h]

/-- C4 witness: a concrete wrong-header advertisement is a no-op. -/
theorem C4_witness :
    (([0, 0xBA] : List Nat).getD 0 0 ≠ 0xBA ∨ ([0, 0xBA] : List Nat).getD 1 0 ≠ 0xBA)
    ∧ parse_MQTT_advertB { snConfig := [65] } [0, 0xBA] = { snConfig := [65] } :=
  ⟨Or.inl (by decide),
   C4_header_reject { snConfig := [65] } [0, 0xBA] (Or.inl (by decide))⟩

/-- C4 counterexample: the claim says a serial-number mismatch also discards
the record without mutation; on the code the mismatch is only logged, and
the update is applied anyway (here the cached battery changes). -/
theorem C4_counterexample :
    advertSerial [0xBA, 0xBA, 5, 6, 0, 0, 7, 88, 88, 88, 0, 0, 0, 0, 0, 0, 1, 44, 0, 0, 0, 9, 0x35, 0x90]
      ≠ ({ snConfig := [65, 66, 67] : DeviceState }).snConfig
    ∧ parse_MQTT_advertB { snConfig := [65, 66, 67] }
        [0xBA, 0xBA, 5, 6, 0, 0, 7, 88, 88, 88, 0, 0, 0, 0, 0, 0, 1, 44, 0, 0, 0, 9, 0x35, 0x90]
      ≠ { snConfig := [65, 66, 67] } := by
  decide

/-- C5 (amended): a successful advertisement decode always replaces the
battery, board model, firmware-version and every flag-derived field
(`isBackLock`, `isInit`, `isImageA`, `isHadNewRecord`, `isEnableAuto`,
`isLeftOpen`, `isLowBattery`, `magnetcurr_state`, `isMagnetEnable`,
`isBABA`) with the values decoded from the new bytes, and always rewrites
the `_lockData` snapshot (state string, events, battery, last advert) to
mirror the resulting cached fields — but the lock state and the cached
event counter are replaced only when the decoded event counter differs from
the cached one; when it is unchanged the lock state keeps its previous
(possibly stale) value, and the snapshot's state string and event counter
mirror that stale state. -/
theorem C5_advert_update (st : DeviceState) (bArr : List Nat)
    (h0 : bArr.getD 0 0 = 0xBA) (h1 : bArr.getD 1 0 = 0xBA) :
    ((parse_MQTT_advertB st bArr).battery = ((bArr.getD 16 0) <<< 8 ||| bArr.getD 17 0))
    ∧ (parse_MQTT_advertB st bArr).boardModel = bArr.getD 2 0
    ∧ (parse_MQTT_advertB st bArr).lversionOfSoft = bArr.getD 3 0
    ∧ (parse_MQTT_advertB st bArr).sversionOfSoft
        = ((bArr.getD 4 0) <<< 16 ||| (bArr.getD 5 0) <<< 8 ||| bArr.getD 6 0)
    ∧ (parse_MQTT_advertB st bArr).isBackLock = ((bArr.getD 22 0) &&& 1 != 0)
    ∧ (parse_MQTT_advertB st bArr).isInit = (2 &&& bArr.getD 22 0 != 0)
    ∧ (parse_MQTT_advertB st bArr).isImageA = ((bArr.getD 22 0) &&& 4 != 0)
    ∧ (parse_MQTT_advertB st bArr).isHadNewRecord = ((bArr.getD 22 0) &&& 8 != 0)
    ∧ (parse_MQTT_advertB st bArr).isEnableAuto = ((bArr.getD 22 0) &&& 0x40 != 0)
    ∧ (parse_MQTT_advertB st bArr).isLeftOpen = ((bArr.getD 22 0) &&& 0x80 != 0)
    ∧ (parse_MQTT_advertB st bArr).isLowBattery = ((bArr.getD 23 0) &&& 0x10 != 0)
    ∧ (parse_MQTT_advertB st bArr).magnetcurr_state = ((bArr.getD 23 0) >>> 5) &&& 3
    ∧ (parse_MQTT_advertB st bArr).isMagnetEnable = ((bArr.getD 23 0) &&& 0x80 != 0)
    ∧ (parse_MQTT_advertB st bArr).isBABA = true
    ∧ (parse_MQTT_advertB st bArr).lockDataBattery
        = ((bArr.getD 16 0) <<< 8 ||| bArr.getD 17 0)
    ∧ (parse_MQTT_advertB st bArr).lockDataLastAdvert = bArr
    ∧ (advertEvents bArr ≠ st.lockEvents →
        (parse_MQTT_advertB st bArr).lockEvents = advertEvents bArr
        ∧ (parse_MQTT_advertB st bArr).curr_state = ((bArr.getD 22 0) >>> 4) &&& 3
        ∧ (parse_MQTT_advertB st bArr).lockDataEvents = advertEvents bArr
        ∧ (parse_MQTT_advertB st bArr).lockDataState
            = LOCK_STATE_STRINGS (((bArr.getD 22 0) >>> 4) &&& 3))
    ∧ (advertEvents bArr = st.lockEvents →
        (parse_MQTT_advertB st bArr).lockEvents = st.lockEvents
        ∧ (parse_MQTT_advertB st bArr).curr_state = st.curr_state
        ∧ (parse_MQTT_advertB st bArr).lockDataEvents = st.lockEvents
        ∧ (parse_MQTT_advertB st bArr).lockDataState
            = LOCK_STATE_STRINGS st.curr_state) := by
  unfold parse_MQTT_advertB
  rw [if_neg (by push_neg; exact ⟨h0, h1⟩)]
  by_cases he : advertEvents bArr = st.lockEvents
  · simp [he]
  · simp [he]

/-- C5 witness: a concrete advertisement with an unchanged event counter. -/
theorem C5_witness :
    (([0xBA, 0xBA, 0, 0, 0, 0, 0, 0, 0, 0, 0, 0, 0, 0, 0, 0, 0, 0, 0, 0, 0, 5, 0x10, 0] : List Nat).getD 0 0 = 0xBA)
    ∧ (([0xBA, 0xBA, 0, 0, 0, 0, 0, 0, 0, 0, 0, 0, 0, 0, 0, 0, 0, 0, 0, 0, 0, 5, 0x10, 0] : List Nat).getD 1 0 = 0xBA)
    ∧ (advertEvents [0xBA, 0xBA, 0, 0, 0, 0, 0, 0, 0, 0, 0, 0, 0, 0, 0, 0, 0, 0, 0, 0, 0, 5, 0x10, 0]
        = ({ lockEvents := 5, curr_state := LOCK_STATE_JAMMED : DeviceState }).lockEvents →
        (parse_MQTT_advertB { lockEvents := 5, curr_state := LOCK_STATE_JAMMED }
          [0xBA, 0xBA, 0, 0, 0, 0, 0, 0, 0, 0, 0, 0, 0, 0, 0, 0, 0, 0, 0, 0, 0, 5, 0x10, 0]).lockEvents
          = ({ lockEvents := 5, curr_state := LOCK_STATE_JAMMED : DeviceState }).lockEvents
        ∧ (parse_MQTT_advertB { lockEvents := 5, curr_state := LOCK_STATE_JAMMED }
          [0xBA, 0xBA, 0, 0, 0, 0, 0, 0, 0, 0, 0, 0, 0, 0, 0, 0, 0, 0, 0, 0, 0, 5, 0x10, 0]).curr_state
          = ({ lockEvents := 5, curr_state := LOCK_STATE_JAMMED : DeviceState }).curr_state
        ∧ (parse_MQTT_advertB { lockEvents := 5, curr_state := LOCK_STATE_JAMMED }
          [0xBA, 0xBA, 0, 0, 0, 0, 0, 0, 0, 0, 0, 0, 0, 0, 0, 0, 0, 0, 0, 0, 0, 5, 0x10, 0]).lockDataEvents
          = ({ lockEvents := 5, curr_state := LOCK_STATE_JAMMED : DeviceState }).lockEvents
        ∧ (parse_MQTT_advertB { lockEvents := 5, curr_state := LOCK_STATE_JAMMED }
          [0xBA, 0xBA, 0, 0, 0, 0, 0, 0, 0, 0, 0, 0, 0, 0, 0, 0, 0, 0, 0, 0, 0, 5, 0x10, 0]).lockDataState
          = LOCK_STATE_STRINGS
              ({ lockEvents := 5, curr_state := LOCK_STATE_JAMMED : DeviceState }).curr_state) :=
  ⟨by decide, by decide,
   (C5_advert_update { lockEvents := 5, curr_state := LOCK_STATE_JAMMED }
      [0xBA, 0xBA, 0, 0, 0, 0, 0, 0, 0, 0, 0, 0, 0, 0, 0, 0, 0, 0, 0, 0, 0, 5, 0x10, 0]
      (by decide) (by decide)).2.2.2.2.2.2.2.2.2.2.2.2.2.2.2.2.2⟩

/-- C5 counterexample: the claim says the lock state is refreshed from the
flag byte even when the event counter is unchanged; on the code, an
advertisement repeating the cached counter (5) with state bits 1 leaves the
stale lock state 2 in place. -/
theorem C5_counterexample :
    (parse_MQTT_advertB { lockEvents := 5, curr_state := LOCK_STATE_JAMMED }
        [0xBA, 0xBA, 0, 0, 0, 0, 0, 0, 0, 0, 0, 0, 0, 0, 0, 0, 0, 0, 0, 0, 0, 5, 0x10, 0]).curr_state
      ≠ (([0xBA, 0xBA, 0, 0, 0, 0, 0, 0, 0, 0, 0, 0, 0, 0, 0, 0, 0, 0, 0, 0, 0, 5, 0x10, 0] : List Nat).getD 22 0 >>> 4) &&& 3 := by
  decide

/-- The advertisement decoder never touches the arrival-time field. -/
theorem parse_MQTT_advertB_time1 (st : DeviceState) (bArr : List Nat) :
    (parse_MQTT_advertB st bArr).time1 = st.time1 := by
  unfold parse_MQTT_advertB
  by_cases hh : bArr.getD 0 0 ≠ 0xBA ∨ bArr.getD 1 0 ≠ 0xBA
  · rw [if_pos hh]
  · rw [if_neg hh]
    by_cases he : advertEvents bArr = st.lockEvents
    · simp [he]
    · simp [he]

/-- The advertisement decoder never touches the availability flag. -/
theorem parse_MQTT_advertB_is_available (st : DeviceState) (bArr : List Nat) :
    (parse_MQTT_advertB st bArr).is_available = st.is_available := by
  unfold parse_MQTT_advertB
  by_cases hh : bArr.getD 0 0 ≠ 0xBA ∨ bArr.getD 1 0 ≠ 0xBA
  · rw [if_pos hh]
  · rw [if_neg hh]
    by_cases he : advertEvents bArr = st.lockEvents
    · simp [he]
    · simp [he]

/-- C8: availability after a processed advertisement — a gap under 30
seconds since the previous arrival marks the device available; a gap of 30
seconds or more marks it unavailable when a previous arrival exists
(`time1 ≠ 0`); and on the very first advertisement (`time1 = 0`)
availability is never set to false. -/
theorem C8_availability (st : DeviceState) (p mqtt_mac : String) (now : Int) (bArr : List Nat)
    (hmac : st.macAddress ≠ "")
    (hm : mqtt_mac = st.macAddress)
    (hlen : p.length = 62)
    (hhex : hexToBytes (strDrop p 10) = some bArr) :
    ((now - st.time1 < 30 → (processAdvertMsg st p mqtt_mac now).st.is_available = true)
    ∧ (30 ≤ now - st.time1 → st.time1 ≠ 0 →
        (processAdvertMsg st p mqtt_mac now).st.is_available = false)
    ∧ (st.time1 = 0 →
        (processAdvertMsg st p mqtt_mac now).st.is_available = true
        ∨ (processAdvertMsg st p mqtt_mac now).st.is_available = st.is_available)) := by
  have htime : (parse_MQTT_advertB { st with last_mqtt_advert := p } bArr).time1 = st.time1 :=
    parse_MQTT_advertB_time1 _ _
  have havail : (parse_MQTT_advertB { st with last_mqtt_advert := p } bArr).is_available
      = st.is_available :=
    parse_MQTT_advertB_is_available _ _
  unfold processAdvertMsg
  rw [if_neg hmac]
  simp only
  rw [if_pos ⟨hm, hlen⟩, hhex]
  simp only
  rw [htime]
  refine ⟨?_, ?_, ?_⟩
  · intro hlt
    rw [if_pos hlt]
  · intro hge hne
    rw [if_neg (by omega), if_pos hne]
  · intro h0
    by_cases hlt : now - st.time1 < 30
    · rw [if_pos hlt]
      exact Or.inl rfl
    · rw [if_neg hlt, if_neg (by rw [h0]; simp)]
      exact Or.inr havail

/-- C8 witness: two advertisements 10 seconds apart at concrete values. -/
theorem C8_witness :
    (("M" : String) ≠ "")
    ∧ ("00000000000000000000000000000000000000000000000000000000000000" : String).length = 62
    ∧ hexToBytes (strDrop "00000000000000000000000000000000000000000000000000000000000000" 10)
        = some (List.replicate 26 0)
    ∧ ((10 : Int) - ({ macAddress := "M" : DeviceState }).time1 < 30 →
        (processAdvertMsg { macAddress := "M" }
          "00000000000000000000000000000000000000000000000000000000000000" "M" 10).st.is_available
        = true) :=
  ⟨by decide, by decide, by decide,
   (C8_availability { macAddress := "M" }
      "00000000000000000000000000000000000000000000000000000000000000" "M" 10
      (List.replicate 26 0) (by decide) rfl (by decide) (by decide)).1⟩

/-! ## The two-frame operation sequence (claim C7) -/

/-- The two frames always carry distinct `FF00` / `FF01` markers, so an
acknowledgment payload can echo at most one of them. -/
theorem strUpper_ff00_ne_ff01 (s t : String) :
    strUpper ("FF00" ++ s) ≠ strUpper ("FF01" ++ t) := by
  intro h
  unfold strUpper at h
  rw [String.ext_iff] at h
  dsimp only at h
  rw [String.data_append, String.data_append] at h
  rw [show ("FF00" : String).data = ['F', 'F', '0', '0'] from rfl,
      show ("FF01" : String).data = ['F', 'F', '0', '1'] from rfl] at h
  simp only [List.map_append, List.map_cons, List.cons_append, List.nil_append] at h
  have hbad : Char.toUpper '0' = Char.toUpper '1' := by
    injection h with _ h
    injection h with _ h
    injection h with _ h
    injection h with h _
  exact absurd hbad (by decide)

/-- A success acknowledgment matching frame 1 (and not frame 2): mark frame 1
sent and publish frame 2. -/
theorem processAck_frame1 (st : DeviceState)
    (h2 : strUpper st.frame1hex ≠ strUpper st.frame2hex) :
    processAck st "DONEWRITE" st.macAddress (strUpper st.frame1hex)
      = { st := { st with frame1sent := true },
          actions := [DevAction.publishOp (BLEOPWritePAYLOADGen st st.frame2hex)] } := by
  simp [processAck, h2]

/-- A success acknowledgment matching frame 2 (and not frame 1): mark frame 2
sent, resolve the final lock state from the pending direction, clear it, and
notify the observers. -/
theorem processAck_frame2 (st : DeviceState)
    (h1 : strUpper st.frame2hex ≠ strUpper st.frame1hex) :
    processAck st "DONEWRITE" st.macAddress (strUpper st.frame2hex)
      = { st := { st with
            frame2sent := true,
            curr_state := if st.operating = 1 then LOCK_STATE_UNLOCKED else 0,
            operating := 0 },
          notified := [if st.operating = 1 then LOCK_STATE_UNLOCKED else 0] } := by
  simp [processAck, h1]

/-- A non-success acknowledgment: the state machine records
`LOCK_STATE_FAILED` and raises, publishing nothing. -/
theorem processAck_nack (st : DeviceState) (s m w : String) (hs : s ≠ "DONEWRITE") :
    processAck st s m w
      = { st := { st with curr_state := LOCK_STATE_FAILED }, threw := true } := by
  simp [processAck, hs]

/-- `operateLock` for direction 1 or 2: reset flags, set the direction,
announce "operating", and derive both frames from the freshly built packet. -/
theorem operateLock_frames (st0 : DeviceState) (dir now : Nat) (hdir : dir = 1 ∨ dir = 2) :
    (operateLock st0 dir now).st = { st0 with
      frame1sent := false,
      frame2sent := false,
      operating := dir,
      curr_state := LOCK_STATE_OPERATING,
      systemTime := now,
      frame1hex := "FF00" ++ strTake
        (makePackageV3 st0.manufacturerKey st0.bindingKey st0.lockDataEvents dir now) 36,
      frame2hex := "FF01" ++ strDrop
        (makePackageV3 st0.manufacturerKey st0.bindingKey st0.lockDataEvents dir now) 36 } := by
  rcases hdir with h | h <;> subst h <;> simp [operateLock, generateOperationCode]

/-- The session state after `operateLock(dir)` (request accepted, frame 1 sent). -/
def afterRequest (st0 : DeviceState) (dir now : Nat) : DeviceState :=
  (operateLock st0 dir now).st

/-- The session state after the matching acknowledgment of frame 1. -/
def afterAck1 (st0 : DeviceState) (dir now : Nat) : DeviceState :=
  (processAck (afterRequest st0 dir now) "DONEWRITE" (afterRequest st0 dir now).macAddress
    (strUpper (afterRequest st0 dir now).frame1hex)).st

/-- The session state after the matching acknowledgment of frame 2. -/
def afterAck2 (st0 : DeviceState) (dir now : Nat) : DeviceState :=
  (processAck (afterAck1 st0 dir now) "DONEWRITE" (afterAck1 st0 dir now).macAddress
    (strUpper (afterAck1 st0 dir now).frame2hex)).st

/-- Symmetric form of `strUpper_ff00_ne_ff01`. -/
theorem strUpper_ff01_ne_ff00 (s t : String) :
    strUpper ("FF01" ++ s) ≠ strUpper ("FF00" ++ t) :=
  fun h => strUpper_ff00_ne_ff01 t s h.symm

/-- C7: from any starting state, `request(1)` followed by the matching
acknowledgments of frame 1 and frame 2 ends with lock state
`LOCK_STATE_UNLOCKED` and the pending direction cleared to 0; the same
sequence for `request(2)` ends with `LOCK_STATE_LOCKED`; and an
acknowledgment whose status is not the `"DONEWRITE"` success marker at
either step puts the machine in `LOCK_STATE_FAILED` without publishing the
remaining frame. -/
theorem C7_state_machine (st0 : DeviceState) (now : Nat) (s m w : String)
    (hs : s ≠ "DONEWRITE") :
    ((afterAck2 st0 1 now).curr_state = LOCK_STATE_UNLOCKED
      ∧ (afterAck2 st0 1 now).operating = 0)
    ∧ ((afterAck2 st0 2 now).curr_state = LOCK_STATE_LOCKED
      ∧ (afterAck2 st0 2 now).operating = 0)
    ∧ ((processAck (afterRequest st0 1 now) s m w).st.curr_state = LOCK_STATE_FAILED
      ∧ (processAck (afterRequest st0 1 now) s m w).actions = [])
    ∧ ((processAck (afterAck1 st0 1 now) s m w).st.curr_state = LOCK_STATE_FAILED
      ∧ (processAck (afterAck1 st0 1 now) s m w).actions = []) := by
  unfold afterAck2 afterAck1 afterRequest
  rw [operateLock_frames st0 1 now (Or.inl rfl), operateLock_frames st0 2 now (Or.inr rfl)]
  simp [processAck, strUpper_ff00_ne_ff01, strUpper_ff01_ne_ff00, hs,
    LOCK_STATE_LOCKED, LOCK_STATE_UNLOCKED, LOCK_STATE_FAILED]

/-- C7 witness: the whole sequence run from the default state with a
concrete failing status. -/
theorem C7_witness :
    (("FAIL" : String) ≠ "DONEWRITE")
    ∧ (afterAck2 {} 1 5).curr_state = LOCK_STATE_UNLOCKED
    ∧ (afterAck2 {} 2 5).curr_state = LOCK_STATE_LOCKED
    ∧ (processAck (afterRequest {} 1 5) "FAIL" "x" "y").st.curr_state = LOCK_STATE_FAILED :=
  ⟨by decide,
   (C7_state_machine {} 5 "FAIL" "x" "y" (by decide)).1.1,
   (C7_state_machine {} 5 "FAIL" "x" "y" (by decide)).2.1.1,
   (C7_state_machine {} 5 "FAIL" "x" "y" (by decide)).2.2.1.1⟩

/-- C6: for every command packet built for direction 1 or 2, the buffer has
36 bytes, byte 28 equals the sum of bytes 3 through 27 inclusive modulo
256, and the returned value is the buffer hex-encoded in uppercase. -/
theorem C6_checksum_and_hex (mk bk : List Nat) (ev op t : Nat) (_hop : op = 1 ∨ op = 2) :
    (makePackageV3Code mk bk ev op t).length = 36
    ∧ (makePackageV3Code mk bk ev op t).getD 28 0
      = ((List.range' 3 25).foldl
          (fun c i => c + (makePackageV3Code mk bk ev op t).getD i 0) 0) % 256
    ∧ makePackageV3 mk bk ev op t = hexUpper (makePackageV3Code mk bk ev op t) := by
  refine ⟨makePackageV3Code_length mk bk ev op t, ?_, rfl⟩
  conv_lhs => unfold makePackageV3Code
  conv_rhs => unfold makePackageV3Code
  dsimp only
  rw [generateSignatureV2_length]
  generalize hsig : generateSignatureV2 (generateWorkingKey bk 0) ev
    ((List.take 17 (List.drop 3 (makePackageV3Pre mk op t)))) = sig
  have hlsig : sig.length = 8 := by
    rw [← hsig]
    exact generateSignatureV2_length _ _ _
  generalize hpre2 : setSlice (makePackageV3Pre mk op t) 20 sig = pre2
  have hlpre2 : pre2.length = 36 := by
    rw [← hpre2]
    rw [length_setSlice]
    · exact makePackageV3Pre_length mk op t
    · rw [hlsig, makePackageV3Pre_length]
      omega
  generalize hck : getCheckSum pre2 3 28 = ck
  have h28 : (pre2.set (20 + 8) ck).getD 28 0 = ck :=
    getD_set_self pre2 28 ck 0 (by rw [hlpre2]; omega)
  rw [h28]
  have hfold : (List.range' 3 25).foldl (fun c i => c + (pre2.set (20 + 8) ck).getD i 0) 0
      = (List.range' 3 25).foldl (fun c i => c + pre2.getD i 0) 0 := by
    apply List.foldl_ext
    intro a b hb
    rw [List.mem_range'_1] at hb
    rw [getD_set_ne pre2 (20 + 8) b ck 0 (by omega)]
  rw [hfold, ← hck]
  unfold getCheckSum
  rw [Nat.and_pow_two_sub_one_eq_mod _ 8]

/-- C6 witness: the packet for direction 1 at concrete inputs satisfies the
checksum and hex-encoding properties. -/
theorem C6_witness :
    ((1 : Nat) = 1 ∨ (1 : Nat) = 2)
    ∧ makePackageV3 [] [] 0 1 0 = hexUpper (makePackageV3Code [] [] 0 1 0) :=
  ⟨Or.inl rfl, (C6_checksum_and_hex [] [] 0 1 0 (Or.inl rfl)).2.2⟩

/-- C1 (amended): in every packet built by `makePackageV3`, the verification
code at bytes `[20, 28)` is computed with the working key
`generateWorkingKey(bindingKey, 0)` — the counter argument of the key
derivation is the constant 0 — while the cached event counter enters only
as the counter argument of `generateSignatureV2` over bytes `[3, 20)` of
the same packet. -/
theorem C1_workingKey_counter_zero (mk bk : List Nat) (ev op t : Nat) :
    ((makePackageV3Code mk bk ev op t).drop 20).take 8
      = generateSignatureV2 (generateWorkingKey bk 0) ev
          (((makePackageV3Code mk bk ev op t).drop 3).take 17) := by
  conv_lhs => unfold makePackageV3Code
  conv_rhs => unfold makePackageV3Code
  dsimp only
  rw [generateSignatureV2_length]
  have hlpre : (makePackageV3Pre mk op t).length = 36 := makePackageV3Pre_length mk op t
  generalize hsig : generateSignatureV2 (generateWorkingKey bk 0) ev
    ((List.take 17 (List.drop 3 (makePackageV3Pre mk op t)))) = sig
  have hlsig : sig.length = 8 := by
    rw [← hsig]
    exact generateSignatureV2_length _ _ _
  generalize hck : getCheckSum (setSlice (makePackageV3Pre mk op t) 20 sig) 3 28 = ck
  have hmsg : ((((setSlice (makePackageV3Pre mk op t) 20 sig).set (20 + 8) ck).drop 3).take 17)
      = (List.take 17 (List.drop 3 (makePackageV3Pre mk op t))) := by
    rw [drop_set_of_le _ _ _ _ (by omega), take_set_of_le _ _ _ _ (by omega)]
    simp only [setSlice]
    rw [List.append_assoc]
    rw [List.drop_append_of_le_length (by rw [List.length_take, hlpre]; omega)]
    rw [take_append_left _ _ 17 (by rw [List.length_drop, List.length_take, hlpre]; omega)]
    rw [List.take_of_length_le (by rw [List.length_drop, List.length_take, hlpre]; omega)]
    rw [List.drop_take]
  have h20 : 20 ≤ (makePackageV3Pre mk op t).length := by
    rw [hlpre]
    omega
  have h8 : 8 ≤ sig.length := by
    rw [hlsig]
  rw [hmsg, hsig]
  rw [drop_set_of_le _ _ _ _ (by omega), take_set_of_le _ _ _ _ (by omega)]
  rw [drop_setSlice_at _ _ _ h20]
  rw [take_append_left _ _ 8 h8]
  exact List.take_of_length_le (by rw [hlsig])

/-- The binding key of the C1 counterexample. -/
def C1bk : List Nat := [1, 2, 3, 4, 5, 6, 7, 8, 9, 10, 11, 12, 13, 14, 15, 16, 17, 18, 19, 20]

/-- The pre-signature buffer of the C1 counterexample's packet
(direction 1, timestamp 0, all-zero manufacturer key). -/
def C1pre : List Nat :=
  [170, 16, 26, 3, 126, 165, 52, 220, 152, 56, 40, 43, 32, 254, 208, 86, 251, 125,
   129, 126, 0, 0, 0, 0, 0, 0, 0, 0, 0, 0, 0, 0, 0, 0, 0, 0]

/-- The packet built at the C1 counterexample's inputs (direction 1,
timestamp 0, all-zero manufacturer key, event counter 1). -/
def C1code : List Nat :=
  [170, 16, 26, 3, 126, 165, 52, 220, 152, 56, 40, 43, 32, 254, 208, 86, 251, 125,
   129, 126, 146, 134, 88, 4, 4, 146, 177, 28, 235, 0, 0, 0, 0, 0, 0, 0]

/-- The working key derived from `C1bk` with counter 0 (as the code does). -/
def C1wk0 : List Nat :=
  [74, 26, 240, 72, 123, 93, 228, 10, 209, 66, 34, 222, 182, 144, 219, 58, 220, 36, 42, 167]

/-- The working key derived from `C1bk` with counter 1 (as the claim says). -/
def C1wk1 : List Nat :=
  [105, 16, 217, 206, 251, 84, 94, 247, 230, 53, 213, 217, 0, 56, 160, 196, 125, 125, 3, 108]

theorem C1pre_eval : makePackageV3Pre (List.replicate 16 0) 1 0 = C1pre := by
  decide

theorem C1wk0_eval : generateWorkingKey C1bk 0 = C1wk0 := by
  decide

theorem C1wk1_eval : generateWorkingKey C1bk 1 = C1wk1 := by
  decide

theorem C1sig0_eval :
    generateSignatureV2 C1wk0 1 (List.take 17 (List.drop 3 C1pre))
      = [146, 134, 88, 4, 4, 146, 177, 28] := by
  decide

theorem C1sig1_eval :
    generateSignatureV2 C1wk1 1 (List.take 17 (List.drop 3 C1pre))
      = [226, 73, 6, 226, 177, 72, 88, 177] := by
  decide

/-- C1 counterexample: the claim says the signing key equals
`deriveWorkingKey(bindingKey, counter)` for the same counter used in the
packet's signature; at this concrete input (event counter 1) the packet is
`C1code`, and its verification code (bytes `[20, 28)`) differs from the one
the counter-derived key `C1wk1` would produce over the same message bytes
`[3, 20)`, because the code derives the working key with the counter
hardwired to 0. -/
theorem C1_counterexample :
    makePackageV3Code (List.replicate 16 0) C1bk 1 1 0 = C1code
    ∧ (C1code.drop 20).take 8
      ≠ generateSignatureV2 (generateWorkingKey C1bk 1) 1 ((C1code.drop 3).take 17) := by
  constructor
  · unfold makePackageV3Code
    dsimp only
    rw [C1pre_eval, C1wk0_eval, C1sig0_eval]
    decide
  · rw [C1wk1_eval]
    have hmsg : (C1code.drop 3).take 17 = List.take 17 (List.drop 3 C1pre) := by decide
    rw [hmsg, C1sig1_eval]
    decide

/-- C2 (amended): the two keys produced by `decryptKeys` are the
`_unpad`-stripped AES-ECB decryptions of plaintext bytes `[16, 48)` and
`[48, 80)` under the session key — `decrypt` always removes the last
byte's value worth of trailing bytes, so each key is strictly shorter than
its 32-byte decryption whenever that decryption is nonempty
(`length ≤ length - 1` with truncated subtraction). -/
theorem C2_unpad_applied (newSnInfo : String) (appKey : List Nat) :
    (decryptKeys newSnInfo appKey).manufacturerKey
      = AESCipher.unpad (ecbDecrypt (sessionKey newSnInfo appKey)
          (((decRecord newSnInfo appKey).drop 16).take 32))
    ∧ (decryptKeys newSnInfo appKey).bindingKey
      = AESCipher.unpad (ecbDecrypt (sessionKey newSnInfo appKey)
          (((decRecord newSnInfo appKey).drop 48).take 32))
    ∧ (decryptKeys newSnInfo appKey).manufacturerKey.length
        ≤ (ecbDecrypt (sessionKey newSnInfo appKey)
            (((decRecord newSnInfo appKey).drop 16).take 32)).length - 1
    ∧ (decryptKeys newSnInfo appKey).bindingKey.length
        ≤ (ecbDecrypt (sessionKey newSnInfo appKey)
            (((decRecord newSnInfo appKey).drop 48).take 32)).length - 1 := by
  unfold decryptKeys AESCipher.decrypt
  dsimp only
  exact ⟨rfl, rfl, unpad_length_le _, unpad_length_le _⟩

/-- A concrete provisioning blob: the AES-ECB encryption (under the first 16
bytes of `C2appKey`) of a well-formed 96-byte plaintext record, plus the
10-byte trailer, base64-encoded.  Decrypting it yields serial number
`AB1234567890`, model `M510`, and 32-byte encrypted key fields. -/
def C2blob : String :=
  "69Sy/oBwbST9W9rLgqYfV+mFRWpumeUUFBdB7WakIzY+/8SO9yf168bA27NCcMIBCP8mGUi7GYHLUaegZnM8f0y3ciFFvZXH9n3eJZyxzJdVZxKYbJpBsARfq3lQ7EmLAAAAAAAAAAAAAA=="

/-- The ASCII bytes of the 20-character application key `ABCDEFGHIJKLMNOP1234`. -/
def C2appKey : List Nat :=
  [65, 66, 67, 68, 69, 70, 71, 72, 73, 74, 75, 76, 77, 78, 79, 80, 49, 50, 51, 52]

/-- The raw bytes of the base64 blob `C2blob` (96 ciphertext bytes plus the
10-byte trailer). -/
def C2cipher : List Nat :=
  [235, 212, 178, 254, 128, 112, 109, 36, 253, 91, 218, 203, 130, 166, 31, 87,
   233, 133, 69, 106, 110, 153, 229, 20, 20, 23, 65, 237, 102, 164, 35, 54,
   62, 255, 196, 142, 247, 39, 245, 235, 198, 192, 219, 179, 66, 112, 194, 1,
   8, 255, 38, 25, 72, 187, 25, 129, 203, 81, 167, 160, 102, 115, 60, 127,
   76, 183, 114, 33, 69, 189, 149, 199, 246, 125, 222, 37, 156, 177, 204, 151,
   85, 103, 18, 152, 108, 154, 65, 176, 4, 95, 171, 121, 80, 236, 73, 139,
   0, 0, 0, 0, 0, 0, 0, 0, 0, 0]

/-- The first 16 bytes of `C2appKey` (the record-decryption key). -/
def C2key : List Nat := [65, 66, 67, 68, 69, 70, 71, 72, 73, 74, 75, 76, 77, 78, 79, 80]

theorem C2b64_eval : b64decode C2blob = C2cipher := by
  decide

theorem C2blk1_eval :
    aesDecryptBlock C2key [235, 212, 178, 254, 128, 112, 109, 36, 253, 91, 218, 203, 130, 166, 31, 87]
      = [65, 66, 49, 50, 51, 52, 53, 54, 55, 56, 57, 48, 0, 0, 0, 0] := by
  decide

theorem C2blk2_eval :
    aesDecryptBlock C2key [233, 133, 69, 106, 110, 153, 229, 20, 20, 23, 65, 237, 102, 164, 35, 54]
      = [1, 2, 3, 4, 5, 6, 7, 8, 9, 10, 11, 12, 13, 14, 15, 16] := by
  decide

theorem C2blk3_eval :
    aesDecryptBlock C2key [62, 255, 196, 142, 247, 39, 245, 235, 198, 192, 219, 179, 66, 112, 194, 1]
      = [17, 18, 19, 20, 21, 22, 23, 24, 25, 26, 27, 28, 29, 30, 31, 32] := by
  decide

theorem C2blk4_eval :
    aesDecryptBlock C2key [8, 255, 38, 25, 72, 187, 25, 129, 203, 81, 167, 160, 102, 115, 60, 127]
      = [33, 34, 35, 36, 37, 38, 39, 40, 41, 42, 43, 44, 45, 46, 47, 48] := by
  decide

theorem C2blk5_eval :
    aesDecryptBlock C2key [76, 183, 114, 33, 69, 189, 149, 199, 246, 125, 222, 37, 156, 177, 204, 151]
      = [49, 50, 51, 52, 53, 54, 55, 56, 57, 58, 59, 60, 61, 62, 63, 64] := by
  decide

theorem C2blk6_eval :
    aesDecryptBlock C2key [85, 103, 18, 152, 108, 154, 65, 176, 4, 95, 171, 121, 80, 236, 73, 139]
      = [77, 53, 49, 48, 0, 0, 0, 0, 0, 0, 0, 0, 0, 0, 0, 8] := by
  decide

/-- The decrypted 88-byte provisioning record hidden in `C2blob`. -/
def C2record : List Nat :=
  [65, 66, 49, 50, 51, 52, 53, 54, 55, 56, 57, 48, 0, 0, 0, 0,
   1, 2, 3, 4, 5, 6, 7, 8, 9, 10, 11, 12, 13, 14, 15, 16,
   17, 18, 19, 20, 21, 22, 23, 24, 25, 26, 27, 28, 29, 30, 31, 32,
   33, 34, 35, 36, 37, 38, 39, 40, 41, 42, 43, 44, 45, 46, 47, 48,
   49, 50, 51, 52, 53, 54, 55, 56, 57, 58, 59, 60, 61, 62, 63, 64,
   77, 53, 49, 48, 0, 0, 0, 0]

example : rstrip0 (C2record.take 16) = [65, 66, 49, 50, 51, 52, 53, 54, 55, 56, 57, 48] := by
  decide

theorem C2rec_eval : decRecord C2blob C2appKey = C2record := by
  unfold decRecord
  dsimp only
  rw [C2b64_eval]
  have hk : C2appKey.take (C2appKey.length - 4) = C2key := by decide
  have hc : C2cipher.take (C2cipher.length - 10)
      = [235, 212, 178, 254, 128, 112, 109, 36, 253, 91, 218, 203, 130, 166, 31, 87,
         233, 133, 69, 106, 110, 153, 229, 20, 20, 23, 65, 237, 102, 164, 35, 54,
         62, 255, 196, 142, 247, 39, 245, 235, 198, 192, 219, 179, 66, 112, 194, 1,
         8, 255, 38, 25, 72, 187, 25, 129, 203, 81, 167, 160, 102, 115, 60, 127,
         76, 183, 114, 33, 69, 189, 149, 199, 246, 125, 222, 37, 156, 177, 204, 151,
         85, 103, 18, 152, 108, 154, 65, 176, 4, 95, 171, 121, 80, 236, 73, 139] := by
    decide
  rw [hk, hc]
  unfold AESCipher.decrypt ecbDecrypt
  have hch : chunks 16
      ([235, 212, 178, 254, 128, 112, 109, 36, 253, 91, 218, 203, 130, 166, 31, 87,
        233, 133, 69, 106, 110, 153, 229, 20, 20, 23, 65, 237, 102, 164, 35, 54,
        62, 255, 196, 142, 247, 39, 245, 235, 198, 192, 219, 179, 66, 112, 194, 1,
        8, 255, 38, 25, 72, 187, 25, 129, 203, 81, 167, 160, 102, 115, 60, 127,
        76, 183, 114, 33, 69, 189, 149, 199, 246, 125, 222, 37, 156, 177, 204, 151,
        85, 103, 18, 152, 108, 154, 65, 176, 4, 95, 171, 121, 80, 236, 73, 139] : List Nat)
      = [[235, 212, 178, 254, 128, 112, 109, 36, 253, 91, 218, 203, 130, 166, 31, 87],
         [233, 133, 69, 106, 110, 153, 229, 20, 20, 23, 65, 237, 102, 164, 35, 54],
         [62, 255, 196, 142, 247, 39, 245, 235, 198, 192, 219, 179, 66, 112, 194, 1],
         [8, 255, 38, 25, 72, 187, 25, 129, 203, 81, 167, 160, 102, 115, 60, 127],
         [76, 183, 114, 33, 69, 189, 149, 199, 246, 125, 222, 37, 156, 177, 204, 151],
         [85, 103, 18, 152, 108, 154, 65, 176, 4, 95, 171, 121, 80, 236, 73, 139]] := by
    decide
  rw [hch]
  rw [List.map_cons, List.map_cons, List.map_cons, List.map_cons, List.map_cons,
    List.map_cons, List.map_nil]
  rw [C2blk1_eval, C2blk2_eval, C2blk3_eval, C2blk4_eval, C2blk5_eval, C2blk6_eval]
  decide

/-- C2 counterexample: at this accepted blob and application key the
produced `manufacturerKey` is not the full 32-byte AES-ECB decryption of
plaintext bytes `[16, 48)` under the session key: `_unpad` strips trailing
bytes, so the key is strictly shorter than 32 bytes. -/
theorem C2_counterexample :
    (decryptKeys C2blob C2appKey).manufacturerKey
      ≠ ecbDecrypt (sessionKey C2blob C2appKey)
          (((decRecord C2blob C2appKey).drop 16).take 32) := by
  intro h
  have hrec : decRecord C2blob C2appKey = C2record := C2rec_eval
  have hlen : (decRecord C2blob C2appKey).length = 88 := by
    rw [hrec]
    decide
  have hraw : (((decRecord C2blob C2appKey).drop 16).take 32).length = 32 := by
    simp [List.length_take, List.length_drop, hlen]
  have hdec : (ecbDecrypt (sessionKey C2blob C2appKey)
      (((decRecord C2blob C2appKey).drop 16).take 32)).length = 32 := by
    rw [ecbDecrypt_length _ _ (by rw [hraw]), hraw]
  have hle := unpad_length_le (ecbDecrypt (sessionKey C2blob C2appKey)
    (((decRecord C2blob C2appKey).drop 16).take 32))
  have hmk : (decryptKeys C2blob C2appKey).manufacturerKey
      = AESCipher.unpad (ecbDecrypt (sessionKey C2blob C2appKey)
          (((decRecord C2blob C2appKey).drop 16).take 32)) := rfl
  rw [hmk] at h
  have hl := congrArg List.length h
  rw [hdec] at hl
  omega
